import Mathlib

/-
Shallow embedding of @zerocity/define-ensure (src/factory.ts, src/assert.ts,
src/types.ts, src/default.ts, src/invariant.ts) and proofs about the
assertion engine: the validator factory's failure pipeline, the ad-hoc
assert, the production-mode probes and the type guards.
-/

namespace DefineEnsure

/-- Runtime identity of an error class: a unique id plus the ids of its
proper ancestors in the prototype chain (so `instanceof` is chain
membership, as in JavaScript). -/
structure ErrClass where
  id : Nat
  ancestors : List Nat
  deriving DecidableEq, Repr

/-- JavaScript values, as far as the engine observes them: the primitives it
compares against (`null`, `undefined`, booleans, numbers incl. NaN,
strings), arrays, plain objects (by identity), and error instances carrying
a class, a message and an optional cause. -/
inductive JSValue : Type where
  | vnull : JSValue
  | vundefined : JSValue
  | vbool : Bool → JSValue
  | vnum : Int → JSValue
  | vnan : JSValue
  | vstr : String → JSValue
  | varr : List JSValue → JSValue
  | vobj : Nat → JSValue
  | verr : ErrClass → String → Option JSValue → JSValue

/-- JavaScript truthiness: everything is truthy except `null`, `undefined`,
`false`, `0`, `NaN` and the empty string. -/
def truthy : JSValue → Bool
  | .vnull => false
  | .vundefined => false
  | .vbool b => b
  | .vnum n => n != 0
  | .vnan => false
  | .vstr s => s != ""
  | .varr _ => true
  | .vobj _ => true
  | .verr _ _ _ => true

/-- `value instanceof C`: true iff the value is an error instance whose
class chain (own class or an ancestor) contains `C`. Non-error values are
never instances of an error class. -/
def instanceOf (v : JSValue) (c : ErrClass) : Bool :=
  match v with
  | .verr cls _ _ => cls.id == c.id || cls.ancestors.contains c.id
  | _ => false

/-- True exactly on error instances. -/
def isErrValue : JSValue → Bool
  | .verr _ _ _ => true
  | _ => false

/-- A message is a string or a zero-argument lazy thunk (types.ts
`Message`). Thunks in the source are pure — they just return a string — so
a thunk is represented by the string it produces; invocation counting is
done by `resolveMessage`. -/
inductive Message : Type where
  | str : String → Message
  | lazy : String → Message
  deriving DecidableEq, Repr

/-- factory.ts `resolveMessage`:
`typeof msg === "function" ? msg() : msg`, paired with the number of thunk
invocations it performs (1 for a thunk, 0 for a string). -/
def resolveMessage : Message → String × Nat
  | .str s => (s, 0)
  | .lazy s => (s, 1)

/-- The environment state observed by the two production probes. -/
structure Env where
  /-- `typeof Deno !== "undefined"` -/
  denoPresent : Bool
  /-- `Deno.env.get` succeeds (env permission granted) -/
  denoEnvAllowed : Bool
  /-- value of the `DENO_ENV` variable (`none` = unset) -/
  denoEnv : Option String
  /-- `typeof process !== "undefined" && process.env` -/
  processPresent : Bool
  /-- value of the `NODE_ENV` variable (`none` = unset) -/
  nodeEnv : Option String
  /-- `typeof import.meta.env !== "undefined"` -/
  importMetaEnvPresent : Bool
  /-- `import.meta.env.PROD` is truthy -/
  importMetaProd : Bool
  /-- `Error.captureStackTrace` exists (V8 engines) -/
  captureStackTraceAvailable : Bool
  deriving DecidableEq, Repr

/-- `Deno.env.get("DENO_ENV")`: throws (`Except.error`) when `Deno` is not
defined (ReferenceError) or env permission is denied; otherwise returns the
variable's value. -/
def denoEnvGet (e : Env) : Except Unit (Option String) :=
  if e.denoPresent then
    if e.denoEnvAllowed then .ok e.denoEnv else .error ()
  else .error ()

/-- The body of factory.ts `isProduction` before its try/catch:
`return Deno.env.get("DENO_ENV") === "production"`, which can throw. -/
def factoryProbeBody (e : Env) : Except Unit Bool :=
  (denoEnvGet e).map (fun v => v == some "production")

/-- factory.ts `isProduction`: the body above wrapped in
`try { ... } catch { return false }`. -/
def factoryIsProduction (e : Env) : Bool :=
  match factoryProbeBody e with
  | .ok b => b
  | .error _ => false

/-- assert.ts `isProduction`: three guarded blocks in order. The Deno block
returns the `DENO_ENV` comparison when `Deno` exists and env access
succeeds (a thrown access is caught and falls through); the Node block
returns the `NODE_ENV` comparison when `process.env` exists; the bundler
block returns true when `import.meta.env.PROD` is set; otherwise false. -/
def assertIsProduction (e : Env) : Bool :=
  match (if e.denoPresent then
           match denoEnvGet e with
           | .ok v => some (v == some "production")
           | .error _ => none
         else none : Option Bool) with
  | some b => b
  | none =>
    if e.processPresent then e.nodeEnv == some "production"
    else if e.importMetaEnvPresent && e.importMetaProd then true
    else false

/-- types.ts `EnsureOptions`. -/
structure EnsureOptions where
  message : Message
  error : Option ErrClass
  cause : Option JSValue
  strip : Option Bool

/-- types.ts `EnsureArg`: a bare message or an options record. -/
inductive EnsureArg : Type where
  | msg : Message → EnsureArg
  | opts : EnsureOptions → EnsureArg

/-- factory.ts `parseArg`: a string or callable is shorthand for
`{ message: value }`; an options record is used as-is. -/
def parseArg : EnsureArg → EnsureOptions
  | .msg m => { message := m, error := none, cause := none, strip := none }
  | .opts o => o

/-- types.ts `DefineEnsureConfig`. -/
structure DefineEnsureConfig where
  error : ErrClass
  name : Option String
  formatMessage : Option (String → String)
  strip : Option Bool

/-- The observable content of a thrown error instance. -/
structure ThrownError where
  cls : ErrClass
  message : String
  cause : Option JSValue

/-- The thrown error as a JavaScript value. -/
def ThrownError.toValue (t : ThrownError) : JSValue :=
  .verr t.cls t.message t.cause

/-- `new Ctor(finalMessage, cause ? { cause } : undefined)`: the options
record is passed only when the supplied cause is truthy, so a falsy cause
leaves the error without a cause. -/
def attachCause : Option JSValue → Option JSValue
  | some x => if truthy x then some x else none
  | none => none

/-- What a failing factory call produces: the thrown error plus how many
times the lazy message thunk was invoked along the way. -/
structure FailOutcome where
  thrown : ThrownError
  lazyCalls : Nat

/-- factory.ts `fail`: parse the argument, compute the effective strip
policy (`strip ?? defaultStrip`, where `defaultStrip = config.strip ?? false`),
then either substitute `name ?? "Invariant failed"` (production strip branch,
message never resolved) or resolve and format the message, and construct the
error with the per-call class override (`ErrorClass ?? DefaultError`) and the
truthiness-filtered cause. -/
def fail (config : DefineEnsureConfig) (e : Env) (arg : EnsureArg) : FailOutcome :=
  let o := parseArg arg
  let defaultStrip := config.strip.getD false
  let shouldStrip := o.strip.getD defaultStrip
  let fm : String × Nat :=
    if shouldStrip && factoryIsProduction e then
      (config.name.getD "Invariant failed", 0)
    else
      let r := resolveMessage o.message
      (match config.formatMessage with
       | some f => f r.1
       | none => r.1, r.2)
  { thrown := { cls := o.error.getD config.error
              , message := fm.1
              , cause := attachCause o.cause }
  , lazyCalls := fm.2 }

/-- The sentinel test in factory.ts `ensure`:
`value === null || value === undefined || value === false`. -/
def isEnsureSentinel : JSValue → Bool
  | .vnull => true
  | .vundefined => true
  | .vbool false => true
  | _ => false

/-- factory.ts `ensure`: fail on the three sentinels, otherwise return the
value unchanged. -/
def ensure (config : DefineEnsureConfig) (e : Env) (v : JSValue) (arg : EnsureArg) :
    Except FailOutcome JSValue :=
  if isEnsureSentinel v then .error (fail config e arg) else .ok v

/-- Lazy-thunk invocations performed by an `ensure` call: on the success
path the source returns the value without ever touching the message, so the
count is 0; on the failure path it is whatever `fail` performed. -/
def ensureLazyCalls (config : DefineEnsureConfig) (e : Env) (v : JSValue)
    (arg : EnsureArg) : Nat :=
  match ensure config e v arg with
  | .error f => f.lazyCalls
  | .ok _ => 0

/-- factory.ts `isError`: `value instanceof DefaultError`. -/
def isError (config : DefineEnsureConfig) (v : JSValue) : Bool :=
  instanceOf v config.error

/-- assert.ts `AssertOptions`. -/
structure AssertOptions where
  message : Message
  error : Option ErrClass
  cause : Option JSValue
  formatMessage : Option (String → String)
  cleanStack : Option Bool
  strip : Option Bool

/-- assert.ts `AssertArg`. -/
inductive AssertArg : Type where
  | msg : Message → AssertArg
  | opts : AssertOptions → AssertArg

/-- assert.ts argument normalization:
`typeof arg === "string" || typeof arg === "function" ? { message: arg } : arg`. -/
def parseAssertArg : AssertArg → AssertOptions
  | .msg m => { message := m, error := none, cause := none
              , formatMessage := none, cleanStack := none, strip := none }
  | .opts o => o

/-- The prototype-chain id of the built-in base `Error` class. -/
def errorBaseId : Nat := 0

/-- assert.ts `AssertError` (extends Error). -/
def AssertErrorClass : ErrClass := { id := 1, ancestors := [errorBaseId] }

/-- default.ts `EnsureError` (extends Error). -/
def EnsureErrorClass : ErrClass := { id := 2, ancestors := [errorBaseId] }

/-- invariant.ts `InvariantError` (extends Error). -/
def InvariantErrorClass : ErrClass := { id := 3, ancestors := [errorBaseId] }

/-- default.ts: `defineEnsure({ error: EnsureError, name: "ensure" })`. -/
def ensureConfig : DefineEnsureConfig :=
  { error := EnsureErrorClass, name := some "ensure"
  , formatMessage := none, strip := none }

/-- invariant.ts: `defineEnsure({ error: InvariantError,
name: "Invariant failed", strip: true })`. -/
def invariantConfig : DefineEnsureConfig :=
  { error := InvariantErrorClass, name := some "Invariant failed"
  , formatMessage := none, strip := some true }

/-- What a failing assert call produces: the thrown error, the thunk
invocation count, and whether the stack-cleaning hook ran. -/
structure AssertOutcome where
  thrown : ThrownError
  lazyCalls : Nat
  stackCleaned : Bool

/-- assert.ts failure path: parse the argument, destructure with defaults
(`error = AssertError, cleanStack = false, strip = false`), resolve the
message (invoking a thunk), apply the per-call formatter, then overwrite
with the literal "Assertion failed" when `strip` is set and the probe
reports production, and construct the error with the truthiness-filtered
cause; `cleanStack` runs only when `Error.captureStackTrace` exists. -/
def assertFail (e : Env) (arg : AssertArg) : AssertOutcome :=
  let options := parseAssertArg arg
  let errorClass := options.error.getD AssertErrorClass
  let cleanStack := options.cleanStack.getD false
  let strip := options.strip.getD false
  let r := resolveMessage options.message
  let formatted :=
    match options.formatMessage with
    | some f => f r.1
    | none => r.1
  let finalMessage :=
    if strip && assertIsProduction e then "Assertion failed" else formatted
  { thrown := { cls := errorClass, message := finalMessage
              , cause := attachCause options.cause }
  , lazyCalls := r.2
  , stackCleaned := cleanStack && e.captureStackTraceAvailable }

/-- assert.ts `assert`: `if (!condition) { ...; throw error }` — `none`
means the call returned silently, `some t` means it threw `t`. -/
def assertRun (e : Env) (condition : JSValue) (arg : AssertArg) :
    Option AssertOutcome :=
  if truthy condition then none else some (assertFail e arg)

/-- Lazy-thunk invocations performed by an `assert` call: 0 on the success
path (the source returns before touching the message), otherwise whatever
the failure path performed. -/
def assertLazyCalls (e : Env) (condition : JSValue) (arg : AssertArg) : Nat :=
  match assertRun e condition arg with
  | some t => t.lazyCalls
  | none => 0

/-- A Deno environment with env permission and `DENO_ENV` unset. -/
def devEnv : Env :=
  { denoPresent := true, denoEnvAllowed := true, denoEnv := none
  , processPresent := false, nodeEnv := none
  , importMetaEnvPresent := false, importMetaProd := false
  , captureStackTraceAvailable := true }

/-- A Deno environment with `DENO_ENV=production`: both probes report
production. -/
def prodDenoEnv : Env :=
  { devEnv with denoEnv := some "production" }

/-- A Node environment with `NODE_ENV=production` and no Deno global. -/
def nodeProdEnv : Env :=
  { denoPresent := false, denoEnvAllowed := false, denoEnv := none
  , processPresent := true, nodeEnv := some "production"
  , importMetaEnvPresent := false, importMetaProd := false
  , captureStackTraceAvailable := true }

/-- A bundler environment with `import.meta.env.PROD` set and neither Deno
env access nor `process`. -/
def viteProdEnv : Env :=
  { denoPresent := false, denoEnvAllowed := false, denoEnv := none
  , processPresent := false, nodeEnv := none
  , importMetaEnvPresent := true, importMetaProd := true
  , captureStackTraceAvailable := true }

/-- A Deno environment where env permission is denied. -/
def deniedEnv : Env :=
  { denoPresent := true, denoEnvAllowed := false, denoEnv := some "production"
  , processPresent := false, nodeEnv := none
  , importMetaEnvPresent := false, importMetaProd := false
  , captureStackTraceAvailable := true }

/-- A plain string argument, used for concrete instantiations. -/
def plainArg : EnsureArg := EnsureArg.msg (Message.str "Required")

/-- A family bound to a user-defined ValidationError class. -/
def cfgValidation : DefineEnsureConfig :=
  { error := { id := 10, ancestors := [errorBaseId] }
  , name := none, formatMessage := none, strip := none }

/-- A family bound to a user-defined AuthError class. -/
def cfgAuth : DefineEnsureConfig :=
  { error := { id := 11, ancestors := [errorBaseId] }
  , name := none, formatMessage := none, strip := none }

/-- A third error class, unrelated to the two families above. -/
def typeErrorClass : ErrClass := { id := 12, ancestors := [errorBaseId] }

/-- C5: for every factory-made checker and every input value, the checker
raises exactly when the value is null, undefined or the boolean false;
every other value, including 0, the empty string, NaN and an empty array,
is returned unchanged. -/
theorem ensure_sentinels (config : DefineEnsureConfig) (e : Env) (arg : EnsureArg) :
    (∀ v, ensure config e v arg = Except.ok v ∨
      (v = JSValue.vnull ∨ v = JSValue.vundefined ∨ v = JSValue.vbool false)) ∧
    (∀ v, (v = JSValue.vnull ∨ v = JSValue.vundefined ∨ v = JSValue.vbool false) →
      ensure config e v arg = Except.error (fail config e arg)) ∧
    ensure config e (JSValue.vnum 0) arg = Except.ok (JSValue.vnum 0) ∧
    ensure config e (JSValue.vstr "") arg = Except.ok (JSValue.vstr "") ∧
    ensure config e JSValue.vnan arg = Except.ok JSValue.vnan ∧
    ensure config e (JSValue.varr []) arg = Except.ok (JSValue.varr []) := by
  refine ⟨?_, ?_, rfl, rfl, rfl, rfl⟩
  · intro v
    cases v with
    | vnull => exact Or.inr (Or.inl rfl)
    | vundefined => exact Or.inr (Or.inr (Or.inl rfl))
    | vbool b =>
      cases b with
      | false => exact Or.inr (Or.inr (Or.inr rfl))
      | true => exact Or.inl rfl
    | vnum n => exact Or.inl rfl
    | vnan => exact Or.inl rfl
    | vstr s => exact Or.inl rfl
    | varr l => exact Or.inl rfl
    | vobj i => exact Or.inl rfl
    | verr c m cs => exact Or.inl rfl
  · rintro v (rfl | rfl | rfl) <;> rfl

/-- C5 witness: the default ensure family raises on null. -/
theorem ensure_sentinels_witness :
    ensure ensureConfig devEnv JSValue.vnull plainArg =
      Except.error (fail ensureConfig devEnv plainArg) :=
  (ensure_sentinels ensureConfig devEnv plainArg).2.1 JSValue.vnull (Or.inl rfl)

/-- C6: the ad-hoc assert raises exactly when the condition is falsy — 0,
the empty string, NaN, null, undefined and false all raise — and returns
silently on every truthy condition. -/
theorem assert_truthiness (e : Env) (arg : AssertArg) :
    (∀ v, truthy v = false → assertRun e v arg = some (assertFail e arg)) ∧
    (∀ v, truthy v = true → assertRun e v arg = none) ∧
    (assertRun e (JSValue.vnum 0) arg).isSome = true ∧
    (assertRun e (JSValue.vstr "") arg).isSome = true ∧
    (assertRun e JSValue.vnan arg).isSome = true ∧
    (assertRun e JSValue.vnull arg).isSome = true ∧
    (assertRun e JSValue.vundefined arg).isSome = true ∧
    (assertRun e (JSValue.vbool false) arg).isSome = true := by
  refine ⟨?_, ?_, rfl, rfl, rfl, rfl, rfl, rfl⟩
  · intro v h
    simp [assertRun, h]
  · intro v h
    simp [assertRun, h]

/-- C6 witness: assert raises on the condition 0. -/
theorem assert_truthiness_witness :
    assertRun devEnv (JSValue.vnum 0) (AssertArg.msg (Message.str "Was 0")) =
      some (assertFail devEnv (AssertArg.msg (Message.str "Was 0"))) :=
  (assert_truthiness devEnv (AssertArg.msg (Message.str "Was 0"))).1
    (JSValue.vnum 0) rfl

/-- C4: the family type guard returns true exactly on instances of the
configured error class; it returns false for null, undefined and every
non-error value without raising; it returns false on an instance of a
strict superclass of the configured class; and two guards bound to
different classes both return false on an instance of a third, unrelated
error class. -/
theorem typeGuard_exact (cfgA cfgB : DefineEnsureConfig) (c : ErrClass)
    (m : String) (cs : Option JSValue)
    (_hAB : cfgA.error ≠ cfgB.error)
    (hA1 : c.id ≠ cfgA.error.id) (hA2 : c.ancestors.contains cfgA.error.id = false)
    (hB1 : c.id ≠ cfgB.error.id) (hB2 : c.ancestors.contains cfgB.error.id = false) :
    (∀ v, isError cfgA v = instanceOf v cfgA.error) ∧
    isError cfgA JSValue.vnull = false ∧
    isError cfgA JSValue.vundefined = false ∧
    (∀ v, isErrValue v = false → isError cfgA v = false) ∧
    (∀ s m2 cs2, cfgA.error.ancestors.contains s.id = true →
      s.ancestors.contains cfgA.error.id = false → s.id ≠ cfgA.error.id →
      isError cfgA (JSValue.verr s m2 cs2) = false) ∧
    isError cfgA (JSValue.verr c m cs) = false ∧
    isError cfgB (JSValue.verr c m cs) = false := by
  refine ⟨fun v => rfl, rfl, rfl, ?_, ?_, ?_, ?_⟩
  · intro v h
    cases v with
    | verr s m2 cs2 => exact absurd h (by simp [isErrValue])
    | vnull => rfl
    | vundefined => rfl
    | vbool b => rfl
    | vnum n => rfl
    | vnan => rfl
    | vstr s => rfl
    | varr l => rfl
    | vobj i => rfl
  · intro s m2 cs2 h1 h2 h3
    simp only [isError, instanceOf, Bool.or_eq_false_iff]
    exact ⟨beq_eq_false_iff_ne.mpr h3, h2⟩
  · simp only [isError, instanceOf, Bool.or_eq_false_iff]
    exact ⟨beq_eq_false_iff_ne.mpr hA1, hA2⟩
  · simp only [isError, instanceOf, Bool.or_eq_false_iff]
    exact ⟨beq_eq_false_iff_ne.mpr hB1, hB2⟩

/-- C4 witness: the ValidationError and AuthError guards both reject an
instance of the unrelated third class, and the ValidationError guard
rejects null. -/
theorem typeGuard_exact_witness :
    isError cfgValidation (JSValue.verr typeErrorClass "t" none) = false ∧
    isError cfgAuth (JSValue.verr typeErrorClass "t" none) = false ∧
    isError cfgValidation JSValue.vnull = false :=
  ⟨(typeGuard_exact cfgValidation cfgAuth typeErrorClass "t" none (by decide)
      (by decide) (by decide) (by decide) (by decide)).2.2.2.2.2.1,
   (typeGuard_exact cfgValidation cfgAuth typeErrorClass "t" none (by decide)
      (by decide) (by decide) (by decide) (by decide)).2.2.2.2.2.2,
   (typeGuard_exact cfgValidation cfgAuth typeErrorClass "t" none (by decide)
      (by decide) (by decide) (by decide) (by decide)).2.1⟩

/-- An assert argument with a lazy message and per-call strip enabled. -/
def lazyStripAssertArg : AssertArg :=
  AssertArg.opts { message := Message.lazy "secret", error := none, cause := none
                 , formatMessage := none, cleanStack := none, strip := some true }

/-- A bare lazy message argument for the factory checker. -/
def lazyArg : EnsureArg := EnsureArg.msg (Message.lazy "sensitive")

/-- C1 counterexample: in a production environment with stripping effective,
the ad-hoc assert still invokes the lazy message callable (exactly once),
contradicting the claim that the callable is never invoked on both
primitives. -/
theorem C1_counterexample :
    assertIsProduction prodDenoEnv = true ∧
    (parseAssertArg lazyStripAssertArg).strip.getD false = true ∧
    (assertFail prodDenoEnv lazyStripAssertArg).lazyCalls = 1 :=
  ⟨by decide, by decide, by decide⟩

/-- C1 (amended): with stripping effective and the respective probe
reporting production, a factory-made checker raises with the family's
configured name (or "Invariant failed") and never invokes the lazy
callable; the ad-hoc assert raises with the fixed literal
"Assertion failed" regardless of the original message, but a lazy message
callable is invoked exactly once (its result is discarded). -/
theorem strip_production_message (config : DefineEnsureConfig) (eF eA : Env)
    (arg : EnsureArg) (aarg : AssertArg)
    (hs : (parseArg arg).strip.getD (config.strip.getD false) = true)
    (hp : factoryIsProduction eF = true)
    (hsa : (parseAssertArg aarg).strip.getD false = true)
    (hpa : assertIsProduction eA = true) :
    (fail config eF arg).thrown.message = config.name.getD "Invariant failed" ∧
    (fail config eF arg).lazyCalls = 0 ∧
    (assertFail eA aarg).thrown.message = "Assertion failed" ∧
    (∀ s, (parseAssertArg aarg).message = Message.lazy s →
      (assertFail eA aarg).lazyCalls = 1) := by
  refine ⟨?_, ?_, ?_, ?_⟩
  · simp [fail, hs, hp]
  · simp [fail, hs, hp]
  · simp [assertFail, hsa, hpa]
  · intro s hls
    simp [assertFail, hsa, hpa, hls, resolveMessage]

/-- C1 witness: the tiny-invariant style family and the ad-hoc assert at a
production Deno environment. -/
theorem strip_production_message_witness :
    (fail invariantConfig prodDenoEnv lazyArg).thrown.message = "Invariant failed" ∧
    (fail invariantConfig prodDenoEnv lazyArg).lazyCalls = 0 ∧
    (assertFail prodDenoEnv lazyStripAssertArg).thrown.message = "Assertion failed" ∧
    (assertFail prodDenoEnv lazyStripAssertArg).lazyCalls = 1 := by
  have h := strip_production_message invariantConfig prodDenoEnv prodDenoEnv
    lazyArg lazyStripAssertArg (by decide) (by decide) (by decide) (by decide)
  exact ⟨h.1, h.2.1, h.2.2.1, h.2.2.2 "secret" rfl⟩

/-- Factory options mirroring `c2AssertOpts`: same message, same effective
error class, same cause, strip enabled. -/
def c2EnsureArg : EnsureArg :=
  EnsureArg.opts { message := Message.lazy "secret", error := some InvariantErrorClass
                 , cause := none, strip := some true }

/-- Assert options with the same effective configuration as `c2EnsureArg`. -/
def c2AssertArg : AssertArg :=
  AssertArg.opts { message := Message.lazy "secret", error := some InvariantErrorClass
                 , cause := none, formatMessage := none, cleanStack := none
                 , strip := some true }

/-- C2 counterexample: with the same effective configuration (same lazy
message, same error class, no formatter, no cause, strip on) and the same
production environment, the two failure paths produce different final
messages and different callable-invocation behavior. -/
theorem C2_counterexample :
    (fail invariantConfig prodDenoEnv c2EnsureArg).thrown.cls =
      (assertFail prodDenoEnv c2AssertArg).thrown.cls ∧
    (fail invariantConfig prodDenoEnv c2EnsureArg).thrown.message = "Invariant failed" ∧
    (assertFail prodDenoEnv c2AssertArg).thrown.message = "Assertion failed" ∧
    (fail invariantConfig prodDenoEnv c2EnsureArg).lazyCalls = 0 ∧
    (assertFail prodDenoEnv c2AssertArg).lazyCalls = 1 :=
  ⟨by decide, by decide, by decide, by decide, by decide⟩

/-- C2 (amended): the two failure paths agree on the steps they share
whenever stripping is not in effect: with the same message, the same
formatter, the same effective error class and the same cause, and with the
strip-and-production test false on each path, both produce the same thrown
error (class, final message, attached cause) and the same
callable-invocation count. -/
theorem pipelines_agree_without_strip (config : DefineEnsureConfig) (e : Env)
    (o : EnsureOptions) (a : AssertOptions)
    (hm : a.message = o.message)
    (hf : a.formatMessage = config.formatMessage)
    (hc : a.cause = o.cause)
    (hcls : a.error.getD AssertErrorClass = o.error.getD config.error)
    (hsF : (o.strip.getD (config.strip.getD false) && factoryIsProduction e) = false)
    (hsA : (a.strip.getD false && assertIsProduction e) = false) :
    (fail config e (EnsureArg.opts o)).thrown =
      (assertFail e (AssertArg.opts a)).thrown ∧
    (fail config e (EnsureArg.opts o)).lazyCalls =
      (assertFail e (AssertArg.opts a)).lazyCalls := by
  refine ⟨?_, ?_⟩ <;>
    simp [fail, assertFail, parseArg, parseAssertArg, hsF, hsA, hm, hf, hc,
      hcls, ThrownError.mk.injEq]

/-- Factory options for the C2 witness. -/
def c2wOptsE : EnsureOptions :=
  { message := Message.lazy "msg", error := none, cause := none, strip := none }

/-- Assert options for the C2 witness with the same effective
configuration. -/
def c2wOptsA : AssertOptions :=
  { message := Message.lazy "msg", error := some EnsureErrorClass, cause := none
  , formatMessage := none, cleanStack := none, strip := none }

/-- C2 witness: outside stripping, the default ensure family's failure and
an equally configured assert failure coincide. -/
theorem pipelines_agree_without_strip_witness :
    (fail ensureConfig devEnv (EnsureArg.opts c2wOptsE)).thrown =
      (assertFail devEnv (AssertArg.opts c2wOptsA)).thrown ∧
    (fail ensureConfig devEnv (EnsureArg.opts c2wOptsE)).lazyCalls =
      (assertFail devEnv (AssertArg.opts c2wOptsA)).lazyCalls :=
  pipelines_agree_without_strip ensureConfig devEnv c2wOptsE c2wOptsA
    rfl rfl rfl (by decide) (by decide) (by decide)

/-- An options argument supplying the falsy cause 0. -/
def c3Arg : EnsureArg :=
  EnsureArg.opts { message := Message.str "m", error := none
                 , cause := some (JSValue.vnum 0), strip := none }

/-- C3 counterexample: raising with the supplied cause 0 yields an error
whose cause is absent, not reference-equal to 0 — the construct step tests
the cause for truthiness (`cause ? { cause } : undefined`). -/
theorem C3_counterexample :
    (fail ensureConfig devEnv c3Arg).thrown.cause ≠ some (JSValue.vnum 0) := by
  intro h
  have h2 : (none : Option JSValue) = some (JSValue.vnum 0) := h
  exact Option.noConfusion h2

/-- C3 (amended): a supplied truthy cause round-trips unchanged through
both primitives (the error's cause is the same value, never inspected or
transformed); a supplied falsy cause (0, "", false, NaN, null, undefined)
is dropped and the error carries no cause. -/
theorem cause_roundtrip (config : DefineEnsureConfig) (e : Env)
    (o : EnsureOptions) (a : AssertOptions) (x : JSValue)
    (ho : o.cause = some x) (ha : a.cause = some x) :
    (truthy x = true →
      (fail config e (EnsureArg.opts o)).thrown.cause = some x ∧
      (assertFail e (AssertArg.opts a)).thrown.cause = some x) ∧
    (truthy x = false →
      (fail config e (EnsureArg.opts o)).thrown.cause = none ∧
      (assertFail e (AssertArg.opts a)).thrown.cause = none) := by
  constructor <;> intro ht <;> constructor <;>
    simp [fail, assertFail, parseArg, parseAssertArg, attachCause, ho, ha, ht]

/-- A truthy error-instance cause. -/
def rootCause : JSValue := JSValue.verr EnsureErrorClass "Root cause" none

/-- Factory options carrying `rootCause`. -/
def c3wOptsE : EnsureOptions :=
  { message := Message.str "Failed", error := none, cause := some rootCause
  , strip := none }

/-- Assert options carrying `rootCause`. -/
def c3wOptsA : AssertOptions :=
  { message := Message.str "Failed", error := none, cause := some rootCause
  , formatMessage := none, cleanStack := none, strip := none }

/-- C3 witness: an error-instance cause round-trips reference-equal through
both primitives. -/
theorem cause_roundtrip_witness :
    (fail ensureConfig devEnv (EnsureArg.opts c3wOptsE)).thrown.cause = some rootCause ∧
    (assertFail devEnv (AssertArg.opts c3wOptsA)).thrown.cause = some rootCause :=
  (cause_roundtrip ensureConfig devEnv c3wOptsE c3wOptsA rootCause rfl rfl).1 rfl

/-- A bare lazy message argument. -/
def c7Arg : EnsureArg := EnsureArg.msg (Message.lazy "boom")

/-- A bare lazy message argument for assert. -/
def c7AssertArg : AssertArg := AssertArg.msg (Message.lazy "boom")

/-- C7 counterexample: a failing call to the tiny-invariant style family in
a production environment invokes the lazy callable 0 times, not exactly 1
time — the strip branch never resolves the message. -/
theorem C7_counterexample :
    ensure invariantConfig prodDenoEnv JSValue.vnull c7Arg =
      Except.error (fail invariantConfig prodDenoEnv c7Arg) ∧
    ensureLazyCalls invariantConfig prodDenoEnv JSValue.vnull c7Arg = 0 ∧
    ensureLazyCalls invariantConfig prodDenoEnv JSValue.vnull c7Arg ≠ 1 :=
  ⟨rfl, by decide, by decide⟩

/-- C7 (amended): a lazy message callable is invoked exactly 0 times on
every passing call for both primitives; on a failing call it is invoked
exactly once, except on the factory path when effective stripping is on and
the probe reports production, where it is invoked 0 times (the ad-hoc
assert invokes it exactly once on every failing call). -/
theorem lazy_invocation_counts (config : DefineEnsureConfig) (e : Env)
    (v : JSValue) (s : String) (arg : EnsureArg) (aarg : AssertArg)
    (hm : (parseArg arg).message = Message.lazy s)
    (hma : (parseAssertArg aarg).message = Message.lazy s) :
    (isEnsureSentinel v = false → ensureLazyCalls config e v arg = 0) ∧
    (truthy v = true → assertLazyCalls e v aarg = 0) ∧
    (isEnsureSentinel v = true →
      ensureLazyCalls config e v arg =
        if (parseArg arg).strip.getD (config.strip.getD false) && factoryIsProduction e
        then 0 else 1) ∧
    (truthy v = false → assertLazyCalls e v aarg = 1) := by
  refine ⟨?_, ?_, ?_, ?_⟩
  · intro h
    simp [ensureLazyCalls, ensure, h]
  · intro h
    simp [assertLazyCalls, assertRun, h]
  · intro h
    cases hcond : (parseArg arg).strip.getD (config.strip.getD false) &&
        factoryIsProduction e <;>
      simp [ensureLazyCalls, ensure, h, fail, hm, resolveMessage, hcond]
  · intro h
    simp [assertLazyCalls, assertRun, assertFail, h, hma, resolveMessage]

/-- C7 witness: a failing assert invokes the lazy callable once; a passing
ensure call invokes it zero times. -/
theorem lazy_invocation_counts_witness :
    assertLazyCalls devEnv JSValue.vnull c7AssertArg = 1 ∧
    ensureLazyCalls ensureConfig devEnv (JSValue.vstr "ok") c7Arg = 0 := by
  have h1 := lazy_invocation_counts ensureConfig devEnv JSValue.vnull "boom"
    c7Arg c7AssertArg rfl rfl
  have h2 := lazy_invocation_counts ensureConfig devEnv (JSValue.vstr "ok") "boom"
    c7Arg c7AssertArg rfl rfl
  exact ⟨h1.2.2.2 rfl, h2.1 rfl⟩

/-- A user-defined error class A (extends Error). -/
def classA : ErrClass := { id := 20, ancestors := [errorBaseId] }

/-- A user-defined error class B that extends A (its chain contains A). -/
def classBsub : ErrClass := { id := 21, ancestors := [20, errorBaseId] }

/-- A family bound to `classA`. -/
def cfgFamilyA : DefineEnsureConfig :=
  { error := classA, name := none, formatMessage := none, strip := none }

/-- A per-call override to `classBsub` on a family bound to `classA`. -/
def c8Arg : EnsureArg :=
  EnsureArg.opts { message := Message.str "m", error := some classBsub
                 , cause := none, strip := none }

/-- C8 counterexample: overriding a family bound to class A with a class B
that extends A raises an instance of B on which the family's type guard for
A returns true, not false — `instanceof` accepts subclass instances. -/
theorem C8_counterexample :
    (fail cfgFamilyA devEnv c8Arg).thrown.cls = classBsub ∧
    instanceOf (ThrownError.toValue (fail cfgFamilyA devEnv c8Arg).thrown)
      classBsub = true ∧
    classA ≠ classBsub ∧
    isError cfgFamilyA
      (ThrownError.toValue (fail cfgFamilyA devEnv c8Arg).thrown) = true :=
  ⟨by decide, by decide, by decide, by decide⟩

/-- C8 (amended): a per-call error-class override to B takes priority over
the family default for every family configuration and every environment —
including when family-level stripping applies — so the failing call raises
an instance of B; and the family's type guard for A returns false on that
raised error provided B is neither A itself nor a subclass of A. -/
theorem errorClass_override (config : DefineEnsureConfig) (e : Env)
    (arg : EnsureArg) (b : ErrClass)
    (ho : (parseArg arg).error = some b) :
    (fail config e arg).thrown.cls = b ∧
    instanceOf (ThrownError.toValue (fail config e arg).thrown) b = true ∧
    (b.id ≠ config.error.id → b.ancestors.contains config.error.id = false →
      isError config (ThrownError.toValue (fail config e arg).thrown) = false) := by
  refine ⟨?_, ?_, ?_⟩
  · simp [fail, ho]
  · simp [instanceOf, ThrownError.toValue, fail, ho]
  · intro h1 h2
    simp only [isError, instanceOf, ThrownError.toValue, fail, ho, Option.getD_some,
      Bool.or_eq_false_iff]
    exact ⟨beq_eq_false_iff_ne.mpr h1, h2⟩

/-- A per-call override to the unrelated third class. -/
def c8wArg : EnsureArg :=
  EnsureArg.opts { message := Message.str "Auth failed", error := some typeErrorClass
                 , cause := none, strip := none }

/-- C8 witness: overriding the ValidationError family with the unrelated
third class raises an instance of that class, and the family guard rejects
it. -/
theorem errorClass_override_witness :
    (fail cfgValidation devEnv c8wArg).thrown.cls = typeErrorClass ∧
    instanceOf (ThrownError.toValue (fail cfgValidation devEnv c8wArg).thrown)
      typeErrorClass = true ∧
    isError cfgValidation
      (ThrownError.toValue (fail cfgValidation devEnv c8wArg).thrown) = false := by
  have h := errorClass_override cfgValidation devEnv c8wArg typeErrorClass rfl
  exact ⟨h.1, h.2.1, h.2.2 (by decide) (by decide)⟩

/-- A per-call strip-enabled string message for assert. -/
def stripAssertStrArg : AssertArg :=
  AssertArg.opts { message := Message.str "secret", error := none, cause := none
                 , formatMessage := none, cleanStack := none, strip := some true }

/-- A family with stripping enabled by default. -/
def stripCfg : DefineEnsureConfig :=
  { error := EnsureErrorClass, name := none, formatMessage := none
  , strip := some true }

/-- C9: the two production probes are different functions of the
environment — the factory's reports production exactly when `Deno` exists,
env access is permitted and `DENO_ENV` is "production", while assert's also
reports production from `NODE_ENV` or `import.meta.env.PROD` when the Deno
check falls through — hence in a Node production environment, with
identical strip settings and the same message, assert strips its message
while a factory-made checker does not. -/
theorem probes_differ :
    (∀ e, factoryIsProduction e = true ↔
      (e.denoPresent = true ∧ e.denoEnvAllowed = true ∧
        e.denoEnv = some "production")) ∧
    assertIsProduction nodeProdEnv = true ∧
    factoryIsProduction nodeProdEnv = false ∧
    assertIsProduction viteProdEnv = true ∧
    factoryIsProduction viteProdEnv = false ∧
    (assertFail nodeProdEnv stripAssertStrArg).thrown.message = "Assertion failed" ∧
    (fail stripCfg nodeProdEnv (EnsureArg.msg (Message.str "secret"))).thrown.message
      = "secret" := by
  refine ⟨?_, by decide, by decide, by decide, by decide, by decide, by decide⟩
  intro e
  rcases e with ⟨dp, da, de, pp, nv, im, ip, cs⟩
  cases dp <;> cases da <;>
    simp [factoryIsProduction, factoryProbeBody, denoEnvGet, Except.map, beq_iff_eq]

/-- An assert argument for the probe-degradation theorem. -/
def plainAssertArg : AssertArg := AssertArg.msg (Message.str "Required")

/-- C10: the mode probes never propagate a failure: when the underlying
environment access throws, the factory probe returns false; when every
source consulted by assert's probe is unavailable, it returns false; and a
failing assertion always returns a thrown error — in particular in a
permission-denied environment — rather than propagating the probe's own
failure out of the assertion call. -/
theorem modeProbe_degrades (e : Env) (arg : AssertArg) :
    (factoryProbeBody e = Except.error () → factoryIsProduction e = false) ∧
    (denoEnvGet e = Except.error () → e.processPresent = false →
      (e.importMetaEnvPresent && e.importMetaProd) = false →
      assertIsProduction e = false) ∧
    (∀ v, truthy v = false → assertRun e v arg = some (assertFail e arg)) ∧
    assertRun deniedEnv JSValue.vnull arg = some (assertFail deniedEnv arg) := by
  refine ⟨?_, ?_, ?_, rfl⟩
  · intro h
    simp [factoryIsProduction, h]
  · intro h hp hi
    cases hd : e.denoPresent <;>
      simp [assertIsProduction, h, hp, hi, hd]
  · intro v h
    simp [assertRun, h]

/-- C10 witness: with Deno env permission denied, both probes report
not-production and a failing assert still throws. -/
theorem modeProbe_degrades_witness :
    factoryIsProduction deniedEnv = false ∧
    assertIsProduction deniedEnv = false ∧
    assertRun deniedEnv JSValue.vnull plainAssertArg =
      some (assertFail deniedEnv plainAssertArg) := by
  have h := modeProbe_degrades deniedEnv plainAssertArg
  exact ⟨h.1 rfl, h.2.1 rfl rfl rfl, h.2.2.2⟩

end DefineEnsure
